import Mathlib

/-!
Shallow embedding of the request-handling and lifecycle logic of the
counter service (src/main.go) together with theorems settling the
behavioural claims about it.

The embedding follows the Go source:
- the gorilla/schema parameter decoder (package-level defaults:
  unknown keys produce a decode error, empty string values leave the
  pre-initialised struct field unchanged);
- the non-anchored regexp match on the constant pattern [a-zA-Z0-9]+;
- Redis INCR semantics (absent key treated as 0, 64-bit signed
  overflow produces an error, otherwise the stored value is replaced
  by its successor which is also returned);
- the counterHandler control flow of src/main.go lines 142-170;
- getKey of src/main.go lines 172-174;
- aboutHandler of src/main.go lines 114-118 (the os.Hostname error is
  discarded, leaving the zero value for the hostname);
- the serverStatus write sequence of main (src/main.go lines 28,67,71).
-/

/-- The server status enumeration of src/main.go lines 223-229. -/
inductive ServerStatus where
  | Starting
  | Running
  | ShuttingDown
  deriving DecidableEq, Repr

/-- The iota values of the Go ServerStatus constants. -/
def ServerStatus.toNat : ServerStatus → Nat
  | .Starting => 0
  | .Running => 1
  | .ShuttingDown => 2

/-- Sequence of values written to the process-wide serverStatus variable,
in program order of main: the initialiser at line 28 writes Starting, line
67 writes Running, line 71 (after the shutdown signal) writes
ShuttingDown.  There is no other write to serverStatus in the program. -/
def lifecycleWrites : List ServerStatus :=
  [ServerStatus.Starting, ServerStatus.Running, ServerStatus.ShuttingDown]

/-- The constant BaseLabel of src/main.go line 31. -/
def BaseLabel : String := "next"

/-- The configuration fields of Config (src/main.go lines 33-42) that the
handler path reads: only RedisPrefix is consulted by getKey. -/
structure Config where
  redisPrefixCfg : String
  deriving DecidableEq

/-- getKey of src/main.go lines 172-174:
Sprintf of prefix, BaseLabel and label joined by dots. -/
def getKey (cfg : Config) (label : String) : String :=
  cfg.redisPrefixCfg ++ "." ++ BaseLabel ++ "." ++ label

/-- Whether a character is matched by the regexp character class
[a-zA-Z0-9] of the pattern at src/main.go line 157. -/
def isAlnumChar (c : Char) : Bool :=
  (97 ≤ c.toNat && c.toNat ≤ 122) ||
  (65 ≤ c.toNat && c.toNat ≤ 90) ||
  (48 ≤ c.toNat && c.toNat ≤ 57)

/-- Embedding of regexp.Match with the constant pattern of src/main.go
line 157.  The pattern [a-zA-Z0-9]+ is unanchored, so the match succeeds
exactly when the subject contains at least one character of the class
(a one-character run already witnesses the plus).  The pattern is a
valid constant, so the error result of regexp.Match is always nil. -/
def regexpMatchAlnum (s : String) : Bool :=
  s.data.any isAlnumChar

/-- Embedding of paramDecoder.Decode (gorilla/schema, package defaults as
produced by schema.NewDecoder at src/main.go line 23) applied to a
CounterRequest pre-initialised with the given label (src/main.go line
149) and the parsed form.  With the default settings:
- any key other than the label field tag yields an UnknownKeyError
  (ignoreUnknownKeys defaults to false);
- for the label key the last value is used, but an empty string value
  leaves the pre-initialised field unchanged (zeroEmpty defaults to
  false). -/
def decodeLabel (init : String) (form : List (String × String)) :
    Except String String :=
  match form.find? (fun p => !(p.1 == "label")) with
  | some p => Except.error ("schema: invalid path " ++ p.1)
  | none =>
    match (form.filter (fun p => p.1 == "label")).getLast? with
    | none => Except.ok init
    | some p => if p.2 == "" then Except.ok init else Except.ok p.2

/-- Maximum value of a 64-bit signed integer, the overflow bound of the
Redis INCR command (counter values are int64, src/main.go line 181). -/
def INT64_MAX : Int := 9223372036854775807

/-- Redis INCR semantics on the remote store, modelled as a partial map
from keys to integer values: an absent key is treated as 0, and the
command fails when the increment would overflow a 64-bit signed
integer; otherwise the key is set to the incremented value, which is
also returned. -/
def redisIncr (store : String → Option Int) (key : String) :
    Except String (Int × (String → Option Int)) :=
  let cur := (store key).getD 0
  if cur = INT64_MAX then
    Except.error "increment or decrement would overflow"
  else
    Except.ok (cur + 1, fun k => if k = key then some (cur + 1) else store k)

/-- The world visible to one request: the process configuration, the
contents of the remote store, and whether the store is reachable. -/
structure World where
  cfg : Config
  store : String → Option Int
  storeUp : Bool

/-- rclient.Incr(...).Result() as seen from the handler: a transport
failure surfaces as an error, otherwise the atomic INCR runs. -/
def worldIncr (w : World) (key : String) : Except String (Int × World) :=
  if w.storeUp then
    match redisIncr w.store key with
    | Except.error e => Except.error e
    | Except.ok vs => Except.ok (vs.1, { w with store := vs.2 })
  else
    Except.error "connection refused"

/-- An inbound request after http parsing: either r.ParseForm failed
(malformed body or query encoding), or it produced the parsed form
key-value pairs. -/
inductive RawRequest where
  | malformed (msg : String)
  | form (params : List (String × String))
  deriving DecidableEq, Repr

/-- Response bodies rendered by the handlers: json.Marshal of
NumberResponse, AboutResponse and ErrorResponse respectively
(src/main.go lines 180-221). -/
inductive ResponseBody where
  | number (value : Int)
  | about (name : String) (version : String) (hostname : String)
  | error (message : String)
  deriving DecidableEq, Repr

/-- An HTTP response: status code and structured body.  NumberResponse
and AboutResponse render with the implicit 200 status; ErrorResponse
renders with the status passed to it (always http.StatusBadRequest =
400 in counterHandler). -/
structure HttpResponse where
  status : Nat
  body : ResponseBody
  deriving DecidableEq, Repr

/-- Result of one run of counterHandler: the rendered response, the
resulting world, and the number of store increment operations the
handler attempted (instrumentation of the single rclient.Incr call
site at src/main.go line 163). -/
structure HandlerOut where
  resp : HttpResponse
  world : World
  incrAttempts : Nat

/-- counterHandler of src/main.go lines 142-170:
1. on a ParseForm error render the error with status 400 and return;
2. decode the form into CounterRequest with Label pre-set to
   "default"; on a decode error render it with status 400 and return;
3. match the label against [a-zA-Z0-9]+ (unanchored); on failure
   render the error "invalid label" with status 400 and return;
4. INCR the derived key; on a store error render it with status 400
   and return;
5. render NumberResponse with the new value (status 200). -/
def counterHandler (req : RawRequest) (w : World) : HandlerOut :=
  match req with
  | RawRequest.malformed msg =>
    ⟨⟨400, ResponseBody.error msg⟩, w, 0⟩
  | RawRequest.form params =>
    match decodeLabel "default" params with
    | Except.error msg => ⟨⟨400, ResponseBody.error msg⟩, w, 0⟩
    | Except.ok label =>
      if regexpMatchAlnum label then
        match worldIncr w (getKey w.cfg label) with
        | Except.error msg => ⟨⟨400, ResponseBody.error msg⟩, w, 1⟩
        | Except.ok vw => ⟨⟨200, ResponseBody.number vw.1⟩, vw.2, 1⟩
      else
        ⟨⟨400, ResponseBody.error "invalid label"⟩, w, 0⟩

/-- Whether the request passes parsing, decoding and label validation,
i.e. reaches the store call of src/main.go line 163. -/
def requestAccepted (req : RawRequest) : Bool :=
  match req with
  | RawRequest.malformed _ => false
  | RawRequest.form params =>
    match decodeLabel "default" params with
    | Except.error _ => false
    | Except.ok label => regexpMatchAlnum label

/-- The label a request decodes to, when parsing and decoding succeed. -/
def decodedLabel (req : RawRequest) : Option String :=
  match req with
  | RawRequest.malformed _ => none
  | RawRequest.form params =>
    match decodeLabel "default" params with
    | Except.error _ => none
    | Except.ok label => some label

/-- A GET request whose query carries exactly one label parameter. -/
def labelReq (label : String) : RawRequest :=
  RawRequest.form [("label", label)]

/-- Run counterHandler n times sequentially against the same request,
threading the world; returns the list of responses in order together
with the final world. -/
def runCounterSeq (req : RawRequest) (w : World) : Nat → List HttpResponse × World
  | 0 => ([], w)
  | Nat.succ n =>
    let out := counterHandler req w
    let rest := runCounterSeq req out.world n
    (out.resp :: rest.1, rest.2)

/-- aboutHandler of src/main.go lines 114-118: the os.Hostname result is
an external input; its error is discarded, so a failed lookup leaves
the hostname at the empty string.  The response body is AboutResponse
with the fixed name "counter" and the build-injected version; the
render writes no explicit status, so the status is 200. -/
def aboutHandler (version : String) (hostnameRes : Except String String) :
    HttpResponse :=
  let hostname :=
    match hostnameRes with
    | Except.ok h => h
    | Except.error _ => ""
  ⟨200, ResponseBody.about "counter" version hostname⟩

/-- The hostname field of an about response body, when it is one. -/
def responseHostname (r : HttpResponse) : Option String :=
  match r.body with
  | ResponseBody.about _ _ h => some h
  | _ => none

/-- A concrete world: default configuration prefix, empty store,
store reachable. -/
def w0 : World :=
  ⟨⟨"counter"⟩, fun _ => none, true⟩

/-- A concrete world whose store is unreachable. -/
def wDown : World :=
  ⟨⟨"counter"⟩, fun _ => none, false⟩

/-- Claim C7: when the label parameter is absent from a request, the
handler uses the default label "default": the decoder leaves the
pre-initialised Label field untouched, and the request is handled
exactly as if label=default had been supplied. -/
theorem c7_default_label (w : World) :
    decodeLabel "default" [] = Except.ok "default" ∧
    counterHandler (RawRequest.form []) w =
      counterHandler (RawRequest.form [("label", "default")]) w :=
  ⟨rfl, rfl⟩

/-- Claim C8: the process-wide serverStatus only ever moves forward in
the order Starting, Running, ShuttingDown: the write sequence of main
starts at Starting, every consecutive transition strictly increases the
status order, and the final (terminal) written status is ShuttingDown,
so no reverse transition occurs in any execution of the lifecycle. -/
theorem c8_lifecycle_forward_only :
    lifecycleWrites.head? = some ServerStatus.Starting ∧
    lifecycleWrites.getLast? = some ServerStatus.ShuttingDown ∧
    List.Chain' (fun a b => a.toNat < b.toNat) lifecycleWrites ∧
    (∀ s ∈ lifecycleWrites, s.toNat ≤ ServerStatus.ShuttingDown.toNat) := by
  refine ⟨rfl, rfl, ?_, ?_⟩
  · simp [lifecycleWrites, List.chain'_cons, ServerStatus.toNat]
  · decide

/-- Claim C10 counterexample: a request whose label parameter is present
with the empty string value is NOT rejected with a 400: the decoder
ignores the empty value (gorilla/schema zeroEmpty defaults to false),
the pre-set default label survives, and on an empty store the request
succeeds with status 200 and body value 1. -/
theorem c10_counterexample :
    (counterHandler (RawRequest.form [("label", "")]) w0).resp =
      ⟨200, ResponseBody.number 1⟩ ∧
    (counterHandler (RawRequest.form [("label", "")]) w0).resp.status ≠ 400 := by
  constructor <;> decide

/-- Claim C10 amended: when the label parameter is present but its value
is the empty string, the decoder leaves the pre-initialised field
unchanged, so the request behaves exactly as if the label parameter
were absent (default label "default"); it is not rejected. -/
theorem c10_empty_label_like_absent (w : World) :
    counterHandler (RawRequest.form [("label", "")]) w =
      counterHandler (RawRequest.form []) w :=
  rfl

/-- Claim C9 counterexample: the about endpoint does not guarantee a
non-empty hostname: aboutHandler discards the os.Hostname error, so
when the lookup fails the rendered hostname is the empty string. -/
theorem c9_counterexample :
    responseHostname (aboutHandler "dev" (Except.error "lookup failed")) =
      some "" := by
  decide

/-- Claim C9 amended: the about endpoint always returns status 200 with
name "counter" and the version string exactly as injected at build
time; the hostname is whatever os.Hostname reports, and is the empty
string when that lookup fails (its error is discarded). -/
theorem c9_about_response (version : String) (hres : Except String String) :
    aboutHandler version hres =
      ⟨200, ResponseBody.about "counter" version (hres.toOption.getD "")⟩ := by
  cases hres <;> rfl

/-- Claim C4 counterexample: a request carrying a parameter other than
label is NOT handled normally: the decoder created by schema.NewDecoder
reports unknown keys as errors (ignoreUnknownKeys defaults to false),
so the handler responds 400 and never reaches the store. -/
theorem c4_counterexample :
    (counterHandler (RawRequest.form [("foo", "bar")]) w0).resp.status = 400 ∧
    (counterHandler (RawRequest.form [("foo", "bar")]) w0).incrAttempts = 0 := by
  constructor <;> decide

/-- Claim C4 amended: a request carrying any parameter other than label
is rejected: the decode step fails with an unknown-key error, the
handler responds with status 400, the store is untouched and no
increment is attempted. -/
theorem c4_unknown_param_rejected (params : List (String × String)) (w : World)
    (h : params.any (fun p => !(p.1 == "label")) = true) :
    (counterHandler (RawRequest.form params) w).resp.status = 400 ∧
    (counterHandler (RawRequest.form params) w).world = w ∧
    (counterHandler (RawRequest.form params) w).incrAttempts = 0 := by
  rcases hf : params.find? (fun p => !(p.1 == "label")) with _ | p
  · exfalso
    rw [List.find?_eq_none] at hf
    rw [List.any_eq_true] at h
    obtain ⟨x, hx, hpx⟩ := h
    exact hf x hx hpx
  · have hd : decodeLabel "default" params =
        Except.error ("schema: invalid path " ++ p.1) := by
      simp [decodeLabel, hf]
    simp [counterHandler, hd]

/-- Witness for the amended claim C4 at the concrete request with the
unknown parameter foo=bar. -/
theorem c4_unknown_param_rejected_witness :
    (counterHandler (RawRequest.form [("foo", "bar")]) w0).resp.status = 400 ∧
    (counterHandler (RawRequest.form [("foo", "bar")]) w0).world = w0 ∧
    (counterHandler (RawRequest.form [("foo", "bar")]) w0).incrAttempts = 0 :=
  c4_unknown_param_rejected [("foo", "bar")] w0 (by decide)

/-- Claim C5 counterexample: validation does not forbid the key
separator: the label a.b contains the separator character yet is
accepted (it contains the alphanumeric characters a and b), reaching
the store and succeeding. -/
theorem c5_counterexample :
    (counterHandler (labelReq "a.b") w0).resp.status = 200 ∧
    (counterHandler (labelReq "a.b") w0).incrAttempts = 1 ∧
    '.' ∈ ("a.b" : String).data := by
  refine ⟨?_, ?_, ?_⟩ <;> decide

/-- Claim C5 amended: validation does not forbid the separator
character inside labels, but distinct labels still never produce
colliding storage keys: for a fixed configuration, getKey is
injective, since the key is the fixed prefix string concatenated with
the whole label. -/
theorem c5_getKey_injective (cfg : Config) (l1 l2 : String)
    (h : getKey cfg l1 = getKey cfg l2) : l1 = l2 := by
  unfold getKey at h
  have hd := congrArg String.data h
  simp only [String.data_append, List.append_assoc,
    List.append_cancel_left_eq] at hd
  exact String.ext hd

/-- Witness for the amended claim C5 at a concrete configuration and
label. -/
theorem c5_getKey_injective_witness : ("a" : String) = "a" :=
  c5_getKey_injective ⟨"counter"⟩ "a" "a" rfl

/-- Claim C2: validation accepts a label exactly when it contains at
least one character of the class [a-zA-Z0-9] (a non-empty alphanumeric
run); a non-empty label without any such character is rejected with a
400 invalid-label response and no store access, while an accepted
label reaches the store; the label with no alphanumeric characters at
all is rejected while a label with some alphanumeric run inside other
characters is accepted. -/
theorem c2_validation_alnum (L : String) (w : World) (hne : L ≠ "") :
    (regexpMatchAlnum L = true ↔ ∃ c ∈ L.data, isAlnumChar c = true) ∧
    (regexpMatchAlnum L = false →
      counterHandler (RawRequest.form [("label", L)]) w =
        ⟨⟨400, ResponseBody.error "invalid label"⟩, w, 0⟩) ∧
    (regexpMatchAlnum L = true →
      (counterHandler (RawRequest.form [("label", L)]) w).incrAttempts = 1) ∧
    regexpMatchAlnum "!!!abc!!!" = true ∧
    regexpMatchAlnum "!!!" = false := by
  have hd : decodeLabel "default" [("label", L)] = Except.ok L := by
    simp [decodeLabel, hne]
  refine ⟨?_, ?_, ?_, by decide, by decide⟩
  · simp [regexpMatchAlnum, List.any_eq_true]
  · intro h
    simp [counterHandler, hd, h]
  · intro h
    rcases hw : worldIncr w (getKey w.cfg L) with e | vw <;>
      simp [counterHandler, hd, h, hw]

/-- Witness for claim C2 at the concrete label made of three
exclamation marks against the concrete initial world. -/
theorem c2_validation_alnum_witness :
    (regexpMatchAlnum "!!!" = true ↔
      ∃ c ∈ ("!!!" : String).data, isAlnumChar c = true) ∧
    (regexpMatchAlnum "!!!" = false →
      counterHandler (RawRequest.form [("label", "!!!")]) w0 =
        ⟨⟨400, ResponseBody.error "invalid label"⟩, w0, 0⟩) ∧
    (regexpMatchAlnum "!!!" = true →
      (counterHandler (RawRequest.form [("label", "!!!")]) w0).incrAttempts = 1) ∧
    regexpMatchAlnum "!!!abc!!!" = true ∧
    regexpMatchAlnum "!!!" = false :=
  c2_validation_alnum "!!!" w0 (by decide)

/-- Claim C3: every request attempts at most one store increment;
exactly one increment is attempted precisely when parsing, decoding
and label validation all succeed, and when no increment is attempted
the store world is left untouched. -/
theorem c3_at_most_one_increment (req : RawRequest) (w : World) :
    (counterHandler req w).incrAttempts ≤ 1 ∧
    ((counterHandler req w).incrAttempts = 1 ↔ requestAccepted req = true) ∧
    ((counterHandler req w).incrAttempts = 0 → (counterHandler req w).world = w) := by
  cases req with
  | malformed msg => simp [counterHandler, requestAccepted]
  | form params =>
    cases hd : decodeLabel "default" params with
    | error msg => simp [counterHandler, requestAccepted, hd]
    | ok label =>
      cases hv : regexpMatchAlnum label with
      | false => simp [counterHandler, requestAccepted, hd, hv]
      | true =>
        rcases hw : worldIncr w (getKey w.cfg label) with e | vw <;>
          simp [counterHandler, requestAccepted, hd, hv, hw]

/-- Claim C6: the handler never responds with a server-error status:
every response status is 200 or 400; and when the store increment for
the validated label fails, the response is exactly the 400 response
with the structured error body carrying the store error message. -/
theorem c6_no_server_error (req : RawRequest) (w : World) :
    ((counterHandler req w).resp.status = 200 ∨
      (counterHandler req w).resp.status = 400) ∧
    (∀ L e, decodedLabel req = some L → regexpMatchAlnum L = true →
      worldIncr w (getKey w.cfg L) = Except.error e →
      (counterHandler req w).resp = ⟨400, ResponseBody.error e⟩) := by
  constructor
  · cases req with
    | malformed msg => simp [counterHandler]
    | form params =>
      cases hd : decodeLabel "default" params with
      | error msg => simp [counterHandler, hd]
      | ok label =>
        cases hv : regexpMatchAlnum label with
        | false => simp [counterHandler, hd, hv]
        | true =>
          rcases hw : worldIncr w (getKey w.cfg label) with e | vw <;>
            simp [counterHandler, hd, hv, hw]
  · intro L e hL hv hw
    cases req with
    | malformed msg => simp [decodedLabel] at hL
    | form params =>
      cases hd : decodeLabel "default" params with
      | error msg => simp [decodedLabel, hd] at hL
      | ok label =>
        simp [decodedLabel, hd] at hL
        subst hL
        simp [counterHandler, hd, hv, hw]

/-- Witness for claim C6 at a concrete request against the concrete
world whose store is unreachable. -/
theorem c6_no_server_error_witness :
    ((counterHandler (labelReq "a") wDown).resp.status = 200 ∨
      (counterHandler (labelReq "a") wDown).resp.status = 400) ∧
    (counterHandler (labelReq "a") wDown).resp =
      ⟨400, ResponseBody.error "connection refused"⟩ :=
  ⟨(c6_no_server_error (labelReq "a") wDown).1,
    (c6_no_server_error (labelReq "a") wDown).2 "a" "connection refused"
      rfl rfl rfl⟩

/-- Helper for claim C1: running the handler n times sequentially with a
validated label against a reachable store whose current value at the
derived key is k yields the responses k+1, k+2, ..., k+n in order. -/
theorem runCounterSeq_values (L : String) (hL : regexpMatchAlnum L = true) :
    ∀ (n : Nat) (k : Int) (w : World), w.storeUp = true →
      (w.store (getKey w.cfg L)).getD 0 = k → k + n ≤ INT64_MAX →
      (runCounterSeq (labelReq L) w n).1 =
        (List.range n).map
          (fun (i : Nat) =>
            (⟨200, ResponseBody.number (k + (i : Int) + 1)⟩ : HttpResponse)) := by
  intro n
  induction n with
  | zero => intro k w hup hst hov; simp [runCounterSeq]
  | succ n ih =>
    intro k w hup hst hov
    have hLne : L ≠ "" := by
      intro hL0
      rw [hL0] at hL
      simp [regexpMatchAlnum] at hL
    have hd : decodeLabel "default" [("label", L)] = Except.ok L := by
      simp [decodeLabel, hLne]
    have hkne : k ≠ INT64_MAX := by
      intro he
      have hpos : (0 : Int) < ((n + 1 : Nat) : Int) := by exact_mod_cast Nat.succ_pos n
      rw [he] at hov
      linarith
    have hstep : counterHandler (labelReq L) w =
        ⟨⟨200, ResponseBody.number (k + 1)⟩,
          { w with store :=
              fun k2 => if k2 = getKey w.cfg L then some (k + 1) else w.store k2 },
          1⟩ := by
      simp [counterHandler, labelReq, hd, hL, worldIncr, hup, redisIncr, hst, hkne]
    have hrec := ih (k + 1)
      { w with store :=
          fun k2 => if k2 = getKey w.cfg L then some (k + 1) else w.store k2 }
      hup (by simp) (by push_cast at hov ⊢; linarith)
    rw [runCounterSeq, hstep]
    simp only [hrec, List.range_succ_eq_map, List.map_cons, List.map_map,
      List.cons.injEq]
    refine ⟨by norm_num, ?_⟩
    refine List.map_congr_left ?_
    intro a _
    simp only [Function.comp_apply]
    congr 2
    push_cast
    ring

/-- Claim C1: for every valid label, starting from an absent storage key,
n sequential successful requests return the values 1, 2, ..., n in
order: the list of responses is exactly the 200 responses with bodies
value 1 through value n, and in particular the i-th response (counting
from one) carries value i. -/
theorem c1_sequential_increments (L : String) (w : World) (n : Nat)
    (hL : regexpMatchAlnum L = true) (hup : w.storeUp = true)
    (habsent : w.store (getKey w.cfg L) = none)
    (hn : (n : Int) ≤ INT64_MAX) :
    (runCounterSeq (labelReq L) w n).1 =
      (List.range n).map
        (fun (i : Nat) =>
          (⟨200, ResponseBody.number ((i : Int) + 1)⟩ : HttpResponse)) := by
  have h := runCounterSeq_values L hL n 0 w hup (by simp [habsent])
    (by simpa using hn)
  simpa using h

/-- Witness for claim C1 at the concrete label foobar, the concrete
initial world with an empty store, and three requests. -/
theorem c1_sequential_increments_witness :
    (runCounterSeq (labelReq "foobar") w0 3).1 =
      (List.range 3).map
        (fun (i : Nat) =>
          (⟨200, ResponseBody.number ((i : Int) + 1)⟩ : HttpResponse)) :=
  c1_sequential_increments "foobar" w0 3 (by decide) rfl rfl (by decide)

/-- Witness for claim C3 at a concrete malformed request against the
concrete initial world. -/
theorem c3_at_most_one_increment_witness :
    (counterHandler (RawRequest.malformed "bad form") w0).incrAttempts ≤ 1 ∧
    (counterHandler (RawRequest.malformed "bad form") w0).world = w0 :=
  ⟨(c3_at_most_one_increment (RawRequest.malformed "bad form") w0).1,
    (c3_at_most_one_increment (RawRequest.malformed "bad form") w0).2.2 rfl⟩

/-- Witness for claim C8 at the concrete initial status. -/
theorem c8_lifecycle_forward_only_witness :
    ServerStatus.Starting.toNat ≤ ServerStatus.ShuttingDown.toNat :=
  c8_lifecycle_forward_only.2.2.2 ServerStatus.Starting (by decide)
